import Mathlib

/-!
Shallow embedding of the `standard_paths` crate (Windows engine).

Sources embedded:
* `src/lib.rs` — the `LocationType` catalog, the `StandardPaths` facade
  (`app_name`, `organisation_name`, `append_organization_and_app`,
  `writable_location`, `standard_locations`).
* `src/windows.rs` — `writable_location_impl` and `standard_locations_impl`,
  together with the `FOLDERID_*` GUID constants they consult.

Modelling decisions:
* A `PathBuf` is its list of path segments; `PathBuf::push(seg)` of a
  relative name is list append of one segment, and `Path::parent` drops the
  last segment (returning `none` on an empty path), matching the only uses
  in the source.
* The OS queries (`SHGetKnownFolderPath`, `env::home_dir`, `env::temp_dir`,
  `env::current_exe`) are read-only and are modelled as an explicit
  environment record `WinEnv` passed to every call; `SHGetKnownFolderPath`
  either succeeds with a path (`HRESULT == S_OK`) or fails (`none`).
* `src/windows.rs` predates a rename visible in `src/lib.rs`: it writes
  `StandardLocation` for the facade struct that `lib.rs` declares as
  `StandardPaths`, and `CacheLocation` for the catalog variant that
  `lib.rs` declares as `AppCacheLocation`.  The embedding uses the
  `lib.rs` names throughout and translates the `CacheLocation` arm of
  `writable_location_impl` as the `AppCacheLocation` arm.
-/

/-- A filesystem path as its list of segments (model of `std::path::PathBuf`). -/
abbrev PathBuf := List String

/-- Model of `Path::parent`: `none` for an empty path, otherwise the path
without its final segment.  Used only on the result of `env::current_exe`. -/
def PathBuf.parent (p : PathBuf) : Option PathBuf :=
  match p with
  | [] => none
  | _ => some p.dropLast

/-- Model of `winapi::shared::guiddef::GUID` (fields `Data1`..`Data4`). -/
structure GUID where
  data1 : Nat
  data2 : Nat
  data3 : Nat
  data4 : List Nat
deriving DecidableEq, Repr

/-- `FOLDERID_Desktop` from `src/windows.rs`. -/
def FOLDERID_Desktop : GUID :=
  ⟨0xB4BFCC3A, 0xDB2C, 0x424C, [0xB0, 0x29, 0x7F, 0xE9, 0x9A, 0x87, 0xC6, 0x41]⟩

/-- `FOLDERID_Documents` from `src/windows.rs`. -/
def FOLDERID_Documents : GUID :=
  ⟨0xFDD39AD0, 0x238F, 0x46AF, [0xAD, 0xB4, 0x6C, 0x85, 0x48, 0x03, 0x69, 0xC7]⟩

/-- `FOLDERID_Fonts` from `src/windows.rs`. -/
def FOLDERID_Fonts : GUID :=
  ⟨0xFD228CB7, 0xAE11, 0x4AE3, [0x86, 0x4C, 0x16, 0xF3, 0x91, 0x0A, 0xB8, 0xFE]⟩

/-- `FOLDERID_Programs` from `src/windows.rs`. -/
def FOLDERID_Programs : GUID :=
  ⟨0xA77F5D77, 0x2E2B, 0x44C3, [0xA6, 0xA2, 0xAB, 0xA6, 0x01, 0x05, 0x4A, 0x51]⟩

/-- `FOLDERID_Music` from `src/windows.rs`. -/
def FOLDERID_Music : GUID :=
  ⟨0x4BD8D571, 0x6D19, 0x48D3, [0xBE, 0x97, 0x42, 0x22, 0x20, 0x08, 0x0E, 0x43]⟩

/-- `FOLDERID_Videos` from `src/windows.rs`. -/
def FOLDERID_Videos : GUID :=
  ⟨0x18989B1D, 0x99B5, 0x455B, [0x84, 0x1C, 0xAB, 0x7C, 0x74, 0xE4, 0xDD, 0xFC]⟩

/-- `FOLDERID_Pictures` from `src/windows.rs`. -/
def FOLDERID_Pictures : GUID :=
  ⟨0x33E28130, 0x4E1E, 0x4676, [0x83, 0x5A, 0x98, 0x39, 0x5C, 0x3B, 0xC3, 0xBB]⟩

/-- `FOLDERID_Downloads` from `src/windows.rs`. -/
def FOLDERID_Downloads : GUID :=
  ⟨0x374DE290, 0x123F, 0x4565, [0x91, 0x64, 0x39, 0xC4, 0x92, 0x5E, 0x46, 0x7B]⟩

/-- `FOLDERID_LocalAppData` from `src/windows.rs`. -/
def FOLDERID_LocalAppData : GUID :=
  ⟨0xF1B32785, 0x6FBA, 0x4FCF, [0x9D, 0x55, 0x7B, 0x8E, 0x7F, 0x15, 0x70, 0x91]⟩

/-- `FOLDERID_RoamingAppData` from `src/windows.rs`. -/
def FOLDERID_RoamingAppData : GUID :=
  ⟨0x3EB685DB, 0x65F9, 0x4CF6, [0xA0, 0x3A, 0xE3, 0xEF, 0x65, 0x72, 0x9F, 0x3D]⟩

/-- `FOLDERID_ProgramData` from `src/windows.rs`. -/
def FOLDERID_ProgramData : GUID :=
  ⟨0x62AB5D82, 0xFDC1, 0x4DC3, [0xA9, 0xDD, 0x07, 0x0D, 0x1D, 0x49, 0x5D, 0x97]⟩

/-- The all-zero GUID produced by the default arm of the folder-id table in
`writable_location_impl` (`src/windows.rs`); `SHGetKnownFolderPath` has no
folder for it. -/
def GUID_null : GUID := ⟨0, 0, 0, [0, 0, 0, 0, 0, 0, 0, 0]⟩

/-- The `LocationType` enumeration from `src/lib.rs`. -/
inductive LocationType where
  | HomeLocation
  | DesktopLocation
  | DocumentsLocation
  | DownloadLocation
  | MoviesLocation
  | MusicLocation
  | PicturesLocation
  | ApplicationsLocation
  | FontsLocation
  | RuntimeLocation
  | TempLocation
  | GenericDataLocation
  | AppDataLocation
  | AppLocalDataLocation
  | GenericCacheLocation
  | AppCacheLocation
  | ConfigLocation
  | GenericConfigLocation
  | AppConfigLocation
deriving DecidableEq, Repr

open LocationType

/-- The `StandardPaths` struct from `src/lib.rs` (called `StandardLocation`
in the older `src/windows.rs`): the application and organisation names. -/
structure StandardPaths where
  app_name : String
  organisation_name : String
deriving DecidableEq, Repr

/-- The read-only OS state consulted by the Windows engine during one
resolution call: the `SHGetKnownFolderPath` table (a successful query
returns the folder's path), `env::home_dir`, `env::temp_dir` and
`env::current_exe` (`Ok` modelled as `some`). -/
structure WinEnv where
  shGetKnownFolderPath : GUID → Option PathBuf
  home_dir : Option PathBuf
  temp_dir : PathBuf
  current_exe : Option PathBuf

/-- `StandardPaths::append_organization_and_app` from `src/lib.rs`:
push the organisation name, then the application name, each skipped
when its string is empty. -/
def StandardPaths.append_organization_and_app (self : StandardPaths)
    (path : PathBuf) : PathBuf :=
  let path := if self.organisation_name.isEmpty then path
              else path ++ [self.organisation_name]
  if self.app_name.isEmpty then path else path ++ [self.app_name]

/-- The folder-id table inside the default arm of `writable_location_impl`
(`src/windows.rs` lines 205-223), including its all-zero default. -/
def folderIdFor : LocationType → GUID
  | DesktopLocation => FOLDERID_Desktop
  | DocumentsLocation => FOLDERID_Documents
  | FontsLocation => FOLDERID_Fonts
  | ApplicationsLocation => FOLDERID_Programs
  | MusicLocation => FOLDERID_Music
  | MoviesLocation => FOLDERID_Videos
  | PicturesLocation => FOLDERID_Pictures
  | AppLocalDataLocation => FOLDERID_LocalAppData
  | GenericDataLocation => FOLDERID_LocalAppData
  | ConfigLocation => FOLDERID_LocalAppData
  | GenericConfigLocation => FOLDERID_LocalAppData
  | AppDataLocation => FOLDERID_RoamingAppData
  | AppConfigLocation => FOLDERID_LocalAppData
  | _ => GUID_null

/-- Recursion measure for `writable_location_impl`: the three arms that
re-enter the engine (`Download` → `Documents`, app cache → `AppLocalData`,
`GenericCache` → `GenericData`) all recurse into rank-0 kinds. -/
def locationRank : LocationType → Nat
  | DownloadLocation => 1
  | AppCacheLocation => 1
  | GenericCacheLocation => 1
  | _ => 0

/-- `writable_location_impl` from `src/windows.rs`.  The recursive arms go
through the `writable_location` facade in the source, which calls straight
back into this function.  The `CacheLocation` arm of the source is the
`AppCacheLocation` arm here (rename, see the file header). -/
def StandardPaths.writable_location_impl (self : StandardPaths) (os : WinEnv) :
    LocationType → Option PathBuf
  | DownloadLocation =>
      match os.shGetKnownFolderPath FOLDERID_Downloads with
      | some path => some path
      | none => self.writable_location_impl os DocumentsLocation
  | AppCacheLocation =>
      match self.writable_location_impl os AppLocalDataLocation with
      | some path => some (path ++ ["cache"])
      | none => none
  | GenericCacheLocation =>
      match self.writable_location_impl os GenericDataLocation with
      | some path => some (path ++ ["cache"])
      | none => none
  | RuntimeLocation => os.home_dir
  | HomeLocation => os.home_dir
  | TempLocation => some os.temp_dir
  | location =>
      match os.shGetKnownFolderPath (folderIdFor location) with
      | some path =>
          if location = ConfigLocation ∨ location = AppConfigLocation ∨
             location = AppDataLocation ∨ location = AppLocalDataLocation then
            some (self.append_organization_and_app path)
          else
            some path
      | none => none
termination_by l => locationRank l
decreasing_by all_goals decide

/-- `StandardPaths::writable_location` from `src/lib.rs`: delegates to the
platform `writable_location_impl`. -/
def StandardPaths.writable_location (self : StandardPaths) (os : WinEnv)
    (location : LocationType) : Option PathBuf :=
  self.writable_location_impl os location

/-- The condition on lines 245-247 of `src/windows.rs` selecting the kinds
that also probe the system-shared program-data folder and the executable
directory. -/
def isSystemShared : LocationType → Bool
  | ConfigLocation | AppConfigLocation | AppDataLocation
  | AppLocalDataLocation | GenericConfigLocation | GenericDataLocation => true
  | _ => false

/-- `standard_locations_impl` from `src/windows.rs`: the writable location
first (when it resolves), then for the system-shared kinds the program-data
known folder (org/app-suffixed except for the two generic kinds), then the
executable's directory and its `data` subdirectory. -/
def StandardPaths.standard_locations_impl (self : StandardPaths) (os : WinEnv)
    (location : LocationType) : Option (List PathBuf) :=
  let dirs : List PathBuf :=
    match self.writable_location os location with
    | some path => [path]
    | none => []
  let dirs :=
    if isSystemShared location then
      let dirs :=
        match os.shGetKnownFolderPath FOLDERID_ProgramData with
        | some path =>
            if location ≠ GenericConfigLocation ∧ location ≠ GenericDataLocation then
              dirs ++ [self.append_organization_and_app path]
            else
              dirs ++ [path]
        | none => dirs
      match os.current_exe with
      | some exe =>
          match PathBuf.parent exe with
          | some parent => dirs ++ [parent, parent ++ ["data"]]
          | none => dirs
      | none => dirs
    else dirs
  some dirs

/-- `StandardPaths::standard_locations` from `src/lib.rs`: delegates to the
platform `standard_locations_impl`. -/
def StandardPaths.standard_locations (self : StandardPaths) (os : WinEnv)
    (location : LocationType) : Option (List PathBuf) :=
  self.standard_locations_impl os location

/-- One call to `writable_location` in state-passing form.  The source takes
the context by shared reference (`&self`) and `StandardPaths` has no interior
mutability, so the call returns the context unchanged; this definition makes
that explicit so absence of mutation is statable. -/
def StandardPaths.writable_location_call (self : StandardPaths) (os : WinEnv)
    (location : LocationType) : Option PathBuf × StandardPaths :=
  (self.writable_location os location, self)

/-- One call to `standard_locations` in state-passing form (see
`StandardPaths.writable_location_call`). -/
def StandardPaths.standard_locations_call (self : StandardPaths) (os : WinEnv)
    (location : LocationType) : Option (List PathBuf) × StandardPaths :=
  (self.standard_locations os location, self)

/-- A context with both names empty, for concrete witnesses. -/
def emptyNames : StandardPaths := ⟨"", ""⟩

/-- A context with organisation `"org"` and application `"app"`. -/
def orgApp : StandardPaths := ⟨"app", "org"⟩

/-- A concrete OS environment in which every known folder consulted by the
engine resolves, for concrete witnesses. -/
def sampleEnv : WinEnv where
  shGetKnownFolderPath := fun g =>
    if g = FOLDERID_LocalAppData then some ["C:", "Users", "u", "AppData", "Local"]
    else if g = FOLDERID_RoamingAppData then some ["C:", "Users", "u", "AppData", "Roaming"]
    else if g = FOLDERID_ProgramData then some ["C:", "ProgramData"]
    else if g = FOLDERID_Downloads then some ["C:", "Users", "u", "Downloads"]
    else if g = FOLDERID_Documents then some ["C:", "Users", "u", "Documents"]
    else none
  home_dir := some ["C:", "Users", "u"]
  temp_dir := ["C:", "Temp"]
  current_exe := some ["C:", "bin", "app.exe"]

/-! ## Helper lemmas shared by the claim theorems -/

/-- Characterisation of `append_organization_and_app`: the organisation
segment (skipped when empty) then the application segment (skipped when
empty) are appended to the base, in that order. -/
theorem append_organization_and_app_eq (sp : StandardPaths) (path : PathBuf) :
    sp.append_organization_and_app path
      = path ++ (if sp.organisation_name.isEmpty then [] else [sp.organisation_name])
             ++ (if sp.app_name.isEmpty then [] else [sp.app_name]) := by
  unfold StandardPaths.append_organization_and_app
  by_cases horg : sp.organisation_name.isEmpty <;>
    by_cases happ : sp.app_name.isEmpty <;> simp [horg, happ]

/-- The writable location of a kind handled by the known-folder table with
an org/app suffix is the queried folder with the suffix mapped over it. -/
theorem writable_location_app_kind (sp : StandardPaths) (os : WinEnv)
    (l : LocationType)
    (h : l = ConfigLocation ∨ l = AppConfigLocation ∨
         l = AppDataLocation ∨ l = AppLocalDataLocation) :
    sp.writable_location os l
      = (os.shGetKnownFolderPath (folderIdFor l)).map sp.append_organization_and_app := by
  rcases h with h | h | h | h <;> subst h <;>
    simp only [StandardPaths.writable_location, StandardPaths.writable_location_impl] <;>
    cases os.shGetKnownFolderPath (folderIdFor _) <;> simp [folderIdFor]

/-- The writable location of a generic known-folder kind is the queried
folder with no suffix. -/
theorem writable_location_generic_kind (sp : StandardPaths) (os : WinEnv)
    (l : LocationType)
    (h : l = GenericDataLocation ∨ l = GenericConfigLocation) :
    sp.writable_location os l = os.shGetKnownFolderPath (folderIdFor l) := by
  rcases h with h | h <;> subst h <;>
    simp only [StandardPaths.writable_location, StandardPaths.writable_location_impl] <;>
    cases os.shGetKnownFolderPath (folderIdFor _) <;> simp [folderIdFor]

/-! ## Claim theorems -/

/-- C1: on the Windows engine, `writable_location` on the app-specific kinds
`AppData`, `AppLocalData`, `Config` and `AppConfig` returns the roaming
(for `AppData`) or local (for the other three) application-data known folder
with the organisation name and then the application name appended as nested
segments, each skipped when its string is empty; on `GenericData` and
`GenericConfig` it returns the same base known folder with no org/app
segments appended. -/
theorem writable_location_app_kinds_suffixed_generic_kinds_bare
    (sp : StandardPaths) (os : WinEnv) :
    sp.writable_location os AppDataLocation
      = (os.shGetKnownFolderPath FOLDERID_RoamingAppData).map sp.append_organization_and_app
  ∧ sp.writable_location os AppLocalDataLocation
      = (os.shGetKnownFolderPath FOLDERID_LocalAppData).map sp.append_organization_and_app
  ∧ sp.writable_location os ConfigLocation
      = (os.shGetKnownFolderPath FOLDERID_LocalAppData).map sp.append_organization_and_app
  ∧ sp.writable_location os AppConfigLocation
      = (os.shGetKnownFolderPath FOLDERID_LocalAppData).map sp.append_organization_and_app
  ∧ sp.writable_location os GenericDataLocation
      = os.shGetKnownFolderPath FOLDERID_LocalAppData
  ∧ sp.writable_location os GenericConfigLocation
      = os.shGetKnownFolderPath FOLDERID_LocalAppData
  ∧ sp.append_organization_and_app
      = fun path =>
          path ++ (if sp.organisation_name.isEmpty then [] else [sp.organisation_name])
               ++ (if sp.app_name.isEmpty then [] else [sp.app_name]) := by
  refine ⟨?_, ?_, ?_, ?_, ?_, ?_, funext fun path => append_organization_and_app_eq sp path⟩
  · exact writable_location_app_kind sp os AppDataLocation (by simp)
  · exact writable_location_app_kind sp os AppLocalDataLocation (by simp)
  · exact writable_location_app_kind sp os ConfigLocation (by simp)
  · exact writable_location_app_kind sp os AppConfigLocation (by simp)
  · exact writable_location_generic_kind sp os GenericDataLocation (by simp)
  · exact writable_location_generic_kind sp os GenericConfigLocation (by simp)

/-- C2: `writable_location AppCacheLocation` is the result of
`writable_location AppLocalDataLocation` with a fixed `"cache"` segment
appended when the latter resolves, and `none` when it does not (the
`Option.map` form states both halves at once). -/
theorem writable_location_appcache_from_applocaldata
    (sp : StandardPaths) (os : WinEnv) :
    sp.writable_location os AppCacheLocation
      = (sp.writable_location os AppLocalDataLocation).map (fun p => p ++ ["cache"]) := by
  simp only [StandardPaths.writable_location]
  rw [StandardPaths.writable_location_impl]
  cases sp.writable_location_impl os AppLocalDataLocation <;> simp

/-- C5: `writable_location DownloadLocation` returns the Downloads known
folder when that query succeeds, and otherwise exactly the result of the
recursive call `writable_location DocumentsLocation`. -/
theorem writable_location_download_fallback (sp : StandardPaths) (os : WinEnv) :
    sp.writable_location os DownloadLocation
      = match os.shGetKnownFolderPath FOLDERID_Downloads with
        | some path => some path
        | none => sp.writable_location os DocumentsLocation := by
  simp only [StandardPaths.writable_location]
  rw [StandardPaths.writable_location_impl]

/-- C6: `writable_location GenericCacheLocation` equals
`writable_location GenericDataLocation` with a `"cache"` segment appended
exactly when `GenericData` resolves; when it does not, both are `none`. -/
theorem writable_location_genericcache_from_genericdata
    (sp : StandardPaths) (os : WinEnv) :
    sp.writable_location os GenericCacheLocation
      = (sp.writable_location os GenericDataLocation).map (fun p => p ++ ["cache"])
  ∧ (sp.writable_location os GenericDataLocation = none
       ↔ sp.writable_location os GenericCacheLocation = none) := by
  have h : sp.writable_location os GenericCacheLocation
      = (sp.writable_location os GenericDataLocation).map (fun p => p ++ ["cache"]) := by
    simp only [StandardPaths.writable_location]
    rw [StandardPaths.writable_location_impl]
    cases sp.writable_location_impl os GenericDataLocation <;> simp
  refine ⟨h, ?_⟩
  rw [h]
  cases sp.writable_location os GenericDataLocation <;> simp

/-- C8: `writable_location` on `RuntimeLocation` and on `HomeLocation` both
return the OS user home directory (`env::home_dir`, an `Option` that is
`none` when the user has no home directory), so the two kinds always
resolve identically. -/
theorem writable_location_runtime_eq_home (sp : StandardPaths) (os : WinEnv) :
    sp.writable_location os RuntimeLocation = os.home_dir
  ∧ sp.writable_location os HomeLocation = os.home_dir
  ∧ sp.writable_location os RuntimeLocation = sp.writable_location os HomeLocation := by
  refine ⟨?_, ?_, ?_⟩ <;> simp [StandardPaths.writable_location,
    StandardPaths.writable_location_impl]

/-- With both names empty, `append_organization_and_app` leaves the path
unchanged (shared by the empty-context claims). -/
theorem append_organization_and_app_empty (sp : StandardPaths)
    (horg : sp.organisation_name = "") (happ : sp.app_name = "")
    (p : PathBuf) : sp.append_organization_and_app p = p := by
  have he : "".isEmpty = true := rfl
  simp [StandardPaths.append_organization_and_app, horg, happ, he]

/-- C3: `standard_locations` never returns `none` (for every kind `l'`), and
for a kind `l` outside the system-shared subset its list is exactly the
singleton of the writable location when that resolves and empty otherwise,
so its length is at most 1. -/
theorem standard_locations_total_and_singleton (sp : StandardPaths)
    (os : WinEnv) (l l' : LocationType) (h : isSystemShared l = false) :
    (sp.standard_locations os l').isSome = true
  ∧ sp.standard_locations os l = some (sp.writable_location os l).toList
  ∧ ((sp.standard_locations os l).getD []).length ≤ 1 := by
  have hl : sp.standard_locations os l = some (sp.writable_location os l).toList := by
    simp only [StandardPaths.standard_locations, StandardPaths.standard_locations_impl, h]
    cases sp.writable_location os l <;> simp
  refine ⟨rfl, hl, ?_⟩
  rw [hl]
  cases sp.writable_location os l <;> simp

/-- C4: for a kind in the system-shared subset, `standard_locations` lists,
in descending priority with unresolved candidates omitted and no gaps: the
writable location (when present), then the program-data known folder
(org/app-suffixed unless the kind is `GenericConfig` or `GenericData`),
then the executable's directory, then that directory with a `"data"`
subdirectory appended last. -/
theorem standard_locations_shared_order (sp : StandardPaths) (os : WinEnv)
    (l : LocationType) (h : isSystemShared l = true) :
    sp.standard_locations os l = some (
      (sp.writable_location os l).toList
      ++ (match os.shGetKnownFolderPath FOLDERID_ProgramData with
          | some path =>
              [if l ≠ GenericConfigLocation ∧ l ≠ GenericDataLocation then
                 sp.append_organization_and_app path
               else path]
          | none => [])
      ++ (match os.current_exe with
          | some exe =>
              match PathBuf.parent exe with
              | some parent => [parent, parent ++ ["data"]]
              | none => []
          | none => [])) := by
  have hpd : ∀ d : List PathBuf,
      (match os.shGetKnownFolderPath FOLDERID_ProgramData with
       | some path =>
           if l ≠ GenericConfigLocation ∧ l ≠ GenericDataLocation then
             d ++ [sp.append_organization_and_app path]
           else d ++ [path]
       | none => d)
      = d ++ (match os.shGetKnownFolderPath FOLDERID_ProgramData with
              | some path =>
                  [if l ≠ GenericConfigLocation ∧ l ≠ GenericDataLocation then
                     sp.append_organization_and_app path
                   else path]
              | none => []) := by
    intro d
    rcases os.shGetKnownFolderPath FOLDERID_ProgramData with _ | path
    · simp
    · by_cases hc : l ≠ GenericConfigLocation ∧ l ≠ GenericDataLocation <;> simp [hc]
  have hexe : ∀ d : List PathBuf,
      (match os.current_exe with
       | some exe =>
           match PathBuf.parent exe with
           | some parent => d ++ [parent, parent ++ ["data"]]
           | none => d
       | none => d)
      = d ++ (match os.current_exe with
              | some exe =>
                  match PathBuf.parent exe with
                  | some parent => [parent, parent ++ ["data"]]
                  | none => []
              | none => []) := by
    intro d
    rcases os.current_exe with _ | exe
    · simp
    · rcases hp : PathBuf.parent exe with _ | parent <;> simp [hp]
  simp only [StandardPaths.standard_locations, StandardPaths.standard_locations_impl, h,
    if_true, hpd, hexe]
  cases sp.writable_location os l <;> simp

/-- The app-cache arm of `writable_location_impl` in equation form (shared
by the empty-context claims). -/
theorem writable_location_appcache_eq (sp : StandardPaths) (os : WinEnv) :
    sp.writable_location os AppCacheLocation
      = (sp.writable_location os AppLocalDataLocation).map (fun p => p ++ ["cache"]) := by
  simp only [StandardPaths.writable_location]
  rw [StandardPaths.writable_location_impl]
  cases sp.writable_location_impl os AppLocalDataLocation <;> simp

/-- The generic-cache arm of `writable_location_impl` in equation form
(shared by the empty-context claims). -/
theorem writable_location_genericcache_eq (sp : StandardPaths) (os : WinEnv) :
    sp.writable_location os GenericCacheLocation
      = (sp.writable_location os GenericDataLocation).map (fun p => p ++ ["cache"]) := by
  simp only [StandardPaths.writable_location]
  rw [StandardPaths.writable_location_impl]
  cases sp.writable_location_impl os GenericDataLocation <;> simp

/-- C7: with both the organisation and the application name empty, no suffix
is appended to any base directory, and each app-specific kind resolves to
the same path as its underlying base known folder / generic counterpart:
`AppData` to the roaming folder unmodified, `AppConfig` and `AppLocalData`
to the local folder unmodified (hence equal to `GenericData`), and
`AppCache` to the same path as `GenericCache`. -/
theorem writable_location_empty_names (sp : StandardPaths) (os : WinEnv)
    (horg : sp.organisation_name = "") (happ : sp.app_name = "") :
    sp.append_organization_and_app = (fun p => p)
  ∧ sp.writable_location os AppDataLocation
      = os.shGetKnownFolderPath FOLDERID_RoamingAppData
  ∧ sp.writable_location os AppConfigLocation
      = os.shGetKnownFolderPath FOLDERID_LocalAppData
  ∧ sp.writable_location os AppLocalDataLocation
      = os.shGetKnownFolderPath FOLDERID_LocalAppData
  ∧ sp.writable_location os AppLocalDataLocation
      = sp.writable_location os GenericDataLocation
  ∧ sp.writable_location os AppCacheLocation
      = sp.writable_location os GenericCacheLocation := by
  have hid : sp.append_organization_and_app = (fun p => p) :=
    funext fun p => append_organization_and_app_empty sp horg happ p
  have happk : ∀ g, (os.shGetKnownFolderPath g).map sp.append_organization_and_app
      = os.shGetKnownFolderPath g := by
    intro g
    rw [hid]
    cases os.shGetKnownFolderPath g <;> simp
  have h2 : sp.writable_location os AppDataLocation
      = os.shGetKnownFolderPath FOLDERID_RoamingAppData := by
    rw [writable_location_app_kind sp os AppDataLocation (by simp)]
    exact happk FOLDERID_RoamingAppData
  have h3 : sp.writable_location os AppConfigLocation
      = os.shGetKnownFolderPath FOLDERID_LocalAppData := by
    rw [writable_location_app_kind sp os AppConfigLocation (by simp)]
    exact happk FOLDERID_LocalAppData
  have h4 : sp.writable_location os AppLocalDataLocation
      = os.shGetKnownFolderPath FOLDERID_LocalAppData := by
    rw [writable_location_app_kind sp os AppLocalDataLocation (by simp)]
    exact happk FOLDERID_LocalAppData
  have h5 : sp.writable_location os AppLocalDataLocation
      = sp.writable_location os GenericDataLocation := by
    rw [h4, writable_location_generic_kind sp os GenericDataLocation (by simp)]
    rfl
  have h6 : sp.writable_location os AppCacheLocation
      = sp.writable_location os GenericCacheLocation := by
    rw [writable_location_appcache_eq, writable_location_genericcache_eq, h5]
  exact ⟨hid, h2, h3, h4, h5, h6⟩

/-- C9: both resolution operations, in state-passing form, are functions of
the context, the OS environment and the kind alone: a second call with the
context returned by the first yields the same result, and no call changes
the context or either of its name fields. -/
theorem resolution_idempotent_no_mutation (sp : StandardPaths) (os : WinEnv)
    (l : LocationType) :
    (sp.writable_location_call os l).1
      = ((sp.writable_location_call os l).2.writable_location_call os l).1
  ∧ (sp.writable_location_call os l).2 = sp
  ∧ (sp.standard_locations_call os l).1
      = ((sp.standard_locations_call os l).2.standard_locations_call os l).1
  ∧ (sp.standard_locations_call os l).2 = sp
  ∧ (sp.writable_location_call os l).2.app_name = sp.app_name
  ∧ (sp.writable_location_call os l).2.organisation_name = sp.organisation_name :=
  ⟨rfl, rfl, rfl, rfl, rfl, rfl⟩

/-- C10: `Config`, `GenericConfig`, `GenericData`, `AppConfig` and
`AppLocalData` all resolve from `FOLDERID_LocalAppData`, so with both names
empty the five kinds yield equal writable paths, while `AppData` resolves
from the distinct `FOLDERID_RoamingAppData`. -/
theorem local_appdata_kinds_coincide (sp : StandardPaths) (os : WinEnv)
    (horg : sp.organisation_name = "") (happ : sp.app_name = "") :
    folderIdFor ConfigLocation = FOLDERID_LocalAppData
  ∧ folderIdFor GenericConfigLocation = FOLDERID_LocalAppData
  ∧ folderIdFor GenericDataLocation = FOLDERID_LocalAppData
  ∧ folderIdFor AppConfigLocation = FOLDERID_LocalAppData
  ∧ folderIdFor AppLocalDataLocation = FOLDERID_LocalAppData
  ∧ sp.writable_location os ConfigLocation
      = sp.writable_location os GenericConfigLocation
  ∧ sp.writable_location os GenericConfigLocation
      = sp.writable_location os GenericDataLocation
  ∧ sp.writable_location os GenericDataLocation
      = sp.writable_location os AppConfigLocation
  ∧ sp.writable_location os AppConfigLocation
      = sp.writable_location os AppLocalDataLocation
  ∧ folderIdFor AppDataLocation = FOLDERID_RoamingAppData
  ∧ FOLDERID_RoamingAppData ≠ FOLDERID_LocalAppData
  ∧ sp.writable_location os AppDataLocation
      = os.shGetKnownFolderPath FOLDERID_RoamingAppData := by
  have hid : sp.append_organization_and_app = (fun p => p) :=
    funext fun p => append_organization_and_app_empty sp horg happ p
  have happk : ∀ g, (os.shGetKnownFolderPath g).map sp.append_organization_and_app
      = os.shGetKnownFolderPath g := by
    intro g
    rw [hid]
    cases os.shGetKnownFolderPath g <;> simp
  have hc : sp.writable_location os ConfigLocation
      = os.shGetKnownFolderPath FOLDERID_LocalAppData := by
    rw [writable_location_app_kind sp os ConfigLocation (by simp)]
    exact happk FOLDERID_LocalAppData
  have hgc : sp.writable_location os GenericConfigLocation
      = os.shGetKnownFolderPath FOLDERID_LocalAppData :=
    writable_location_generic_kind sp os GenericConfigLocation (by simp)
  have hgd : sp.writable_location os GenericDataLocation
      = os.shGetKnownFolderPath FOLDERID_LocalAppData :=
    writable_location_generic_kind sp os GenericDataLocation (by simp)
  have hac : sp.writable_location os AppConfigLocation
      = os.shGetKnownFolderPath FOLDERID_LocalAppData := by
    rw [writable_location_app_kind sp os AppConfigLocation (by simp)]
    exact happk FOLDERID_LocalAppData
  have hald : sp.writable_location os AppLocalDataLocation
      = os.shGetKnownFolderPath FOLDERID_LocalAppData := by
    rw [writable_location_app_kind sp os AppLocalDataLocation (by simp)]
    exact happk FOLDERID_LocalAppData
  have had : sp.writable_location os AppDataLocation
      = os.shGetKnownFolderPath FOLDERID_RoamingAppData := by
    rw [writable_location_app_kind sp os AppDataLocation (by simp)]
    exact happk FOLDERID_RoamingAppData
  exact ⟨rfl, rfl, rfl, rfl, rfl,
    hc.trans hgc.symm, hgc.trans hgd.symm, hgd.trans hac.symm, hac.trans hald.symm,
    rfl, by decide, had⟩

/-! ## Concrete witnesses -/

/-- Witness for C3 at `l = TempLocation`, `l' = AppDataLocation` with the
`orgApp` context in the `sampleEnv` environment. -/
theorem standard_locations_total_and_singleton_witness :
    isSystemShared TempLocation = false
  ∧ ((orgApp.standard_locations sampleEnv AppDataLocation).isSome = true
     ∧ orgApp.standard_locations sampleEnv TempLocation
         = some (orgApp.writable_location sampleEnv TempLocation).toList
     ∧ ((orgApp.standard_locations sampleEnv TempLocation).getD []).length ≤ 1) :=
  ⟨by decide,
   standard_locations_total_and_singleton orgApp sampleEnv TempLocation
     AppDataLocation (by decide)⟩

/-- Witness for C4 at `l = AppDataLocation` with the `orgApp` context in the
`sampleEnv` environment. -/
theorem standard_locations_shared_order_witness :
    isSystemShared AppDataLocation = true
  ∧ orgApp.standard_locations sampleEnv AppDataLocation = some (
      (orgApp.writable_location sampleEnv AppDataLocation).toList
      ++ (match sampleEnv.shGetKnownFolderPath FOLDERID_ProgramData with
          | some path =>
              [if AppDataLocation ≠ GenericConfigLocation ∧
                  AppDataLocation ≠ GenericDataLocation then
                 orgApp.append_organization_and_app path
               else path]
          | none => [])
      ++ (match sampleEnv.current_exe with
          | some exe =>
              match PathBuf.parent exe with
              | some parent => [parent, parent ++ ["data"]]
              | none => []
          | none => [])) :=
  ⟨by decide,
   standard_locations_shared_order orgApp sampleEnv AppDataLocation (by decide)⟩

/-- Witness for C7 with the `emptyNames` context in the `sampleEnv`
environment. -/
theorem writable_location_empty_names_witness :
    emptyNames.organisation_name = ""
  ∧ emptyNames.app_name = ""
  ∧ (emptyNames.append_organization_and_app = (fun p => p)
     ∧ emptyNames.writable_location sampleEnv AppDataLocation
         = sampleEnv.shGetKnownFolderPath FOLDERID_RoamingAppData
     ∧ emptyNames.writable_location sampleEnv AppConfigLocation
         = sampleEnv.shGetKnownFolderPath FOLDERID_LocalAppData
     ∧ emptyNames.writable_location sampleEnv AppLocalDataLocation
         = sampleEnv.shGetKnownFolderPath FOLDERID_LocalAppData
     ∧ emptyNames.writable_location sampleEnv AppLocalDataLocation
         = emptyNames.writable_location sampleEnv GenericDataLocation
     ∧ emptyNames.writable_location sampleEnv AppCacheLocation
         = emptyNames.writable_location sampleEnv GenericCacheLocation) :=
  ⟨rfl, rfl, writable_location_empty_names emptyNames sampleEnv rfl rfl⟩

/-- Witness for C10 with the `emptyNames` context in the `sampleEnv`
environment. -/
theorem local_appdata_kinds_coincide_witness :
    emptyNames.organisation_name = ""
  ∧ emptyNames.app_name = ""
  ∧ (folderIdFor ConfigLocation = FOLDERID_LocalAppData
     ∧ folderIdFor GenericConfigLocation = FOLDERID_LocalAppData
     ∧ folderIdFor GenericDataLocation = FOLDERID_LocalAppData
     ∧ folderIdFor AppConfigLocation = FOLDERID_LocalAppData
     ∧ folderIdFor AppLocalDataLocation = FOLDERID_LocalAppData
     ∧ emptyNames.writable_location sampleEnv ConfigLocation
         = emptyNames.writable_location sampleEnv GenericConfigLocation
     ∧ emptyNames.writable_location sampleEnv GenericConfigLocation
         = emptyNames.writable_location sampleEnv GenericDataLocation
     ∧ emptyNames.writable_location sampleEnv GenericDataLocation
         = emptyNames.writable_location sampleEnv AppConfigLocation
     ∧ emptyNames.writable_location sampleEnv AppConfigLocation
         = emptyNames.writable_location sampleEnv AppLocalDataLocation
     ∧ folderIdFor AppDataLocation = FOLDERID_RoamingAppData
     ∧ FOLDERID_RoamingAppData ≠ FOLDERID_LocalAppData
     ∧ emptyNames.writable_location sampleEnv AppDataLocation
         = sampleEnv.shGetKnownFolderPath FOLDERID_RoamingAppData) :=
  ⟨rfl, rfl, local_appdata_kinds_coincide emptyNames sampleEnv rfl rfl⟩
